import Mathlib

/-!
Verification of the runner/provider orchestration layer of the
google-maps-scraper repository, shallowly embedded in Lean 4.

The embedding covers:
* `web/handlers/jobs.go` — the `CreateJobRequest` validation, the
  `CreateJob` HTTP handler, `respondWithError` and `respondWithJSON`;
* `web/server/server.go` — the `Server` start/shutdown surface;
* the `main` entry point — signal handling, the server goroutine,
  `runnerFactory` resolution and the run/close/telemetry/exit sequence.

Go machine integers are modelled as `Int`; fallible operations return
`Option`/`Except`; HTTP and process effects are modelled as explicit data
(response values, event traces, exit codes).
-/

namespace GMapsScraper

/-- The decoded job-creation request body, from `CreateJobRequest` in
`web/handlers/jobs.go` (fields `query`, `language`, `max_depth`,
`extract_email`, `geo_coordinates`, `zoom`). -/
structure CreateJobRequest where
  query : String
  language : String
  maxDepth : Int
  extractEmail : Bool
  geoCoords : String
  zoom : Int
deriving Repr, DecidableEq

/-- The response struct `CreateJobResponse` in `web/handlers/jobs.go`:
fields `job_id`, `status`, `message` (with `omitempty`), `request_id`. -/
structure CreateJobResponse where
  jobID : String
  status : String
  message : String
  requestID : String
deriving Repr, DecidableEq

/-- Embedding of Go's `strings.TrimSpace`: the string with leading and
trailing whitespace removed. -/
def trimSpace (s : String) : String :=
  String.mk (((s.data.dropWhile Char.isWhitespace).reverse.dropWhile Char.isWhitespace).reverse)

/-- The list of violation messages accumulated by
`CreateJobRequest.validate` in `web/handlers/jobs.go` (lines 44-68), in
the order the code appends them: query, language, max_depth, zoom. -/
def CreateJobRequest.validationErrors (r : CreateJobRequest) : List String :=
  (if trimSpace r.query = "" then ["query is required"] else []) ++
  (if trimSpace r.language = "" then ["language is required"] else []) ++
  (if r.maxDepth < 0 ∨ r.maxDepth > 10 then ["max_depth must be between 0 and 10"] else []) ++
  (if r.zoom < 0 ∨ r.zoom > 21 then ["zoom must be between 0 and 21"] else [])

/-- The result of `CreateJobRequest.validate`: `none` models a nil error,
`some msg` models the error built by
`fmt.Errorf("validation failed: %s", strings.Join(errors, ", "))`. -/
def CreateJobRequest.validate (r : CreateJobRequest) : Option String :=
  let errors := r.validationErrors
  if errors.length > 0 then
    some ("validation failed: " ++ String.intercalate ", " errors)
  else
    none

/-- Spec-side restatement of the four validation rules of §4.3, written
from the spec text, to be compared with the code-side
`CreateJobRequest.validate`. Each rule is an independent predicate; a rule
failing contributes its message, and all four are always evaluated. -/
def specViolatedRules (r : CreateJobRequest) : List String :=
  (if trimSpace r.query = "" then ["query is required"] else []) ++
  (if trimSpace r.language = "" then ["language is required"] else []) ++
  (if ¬ (0 ≤ r.maxDepth ∧ r.maxDepth ≤ 10) then ["max_depth must be between 0 and 10"] else []) ++
  (if ¬ (0 ≤ r.zoom ∧ r.zoom ≤ 21) then ["zoom must be between 0 and 21"] else [])

/-- Spec-side validation outcome of §4.3: `none` when no rule is violated,
otherwise the `"validation failed: "` prefix followed by the messages of
every violated rule, joined by `", "`, in the order query, language,
max_depth, zoom. -/
def specValidate (r : CreateJobRequest) : Option String :=
  if specViolatedRules r = [] then none
  else some ("validation failed: " ++ String.intercalate ", " (specViolatedRules r))

/-- Escaping applied to string values when rendering JSON, covering the
characters that can occur in this layer's payloads (quote and backslash). -/
def jsonEscape (s : String) : String :=
  String.join (s.data.map fun c =>
    if c = '\\' then "\\\\"
    else if c = '"' then "\\\""
    else String.singleton c)

/-- The (key, value) pairs emitted by Go's `encoding/json` for a
`CreateJobResponse` value: struct-declaration order `job_id`, `status`,
`message`, `request_id`; only `message` carries `omitempty`, so it is
skipped exactly when it is the empty string. -/
def CreateJobResponse.marshalFields (resp : CreateJobResponse) : List (String × String) :=
  [("job_id", resp.jobID), ("status", resp.status)] ++
  (if resp.message = "" then [] else [("message", resp.message)]) ++
  [("request_id", resp.requestID)]

/-- Rendering of a JSON object from its (key, value) pairs (all values in
this layer are strings). -/
def renderJsonObject (fields : List (String × String)) : String :=
  "\x7b" ++
    String.intercalate ","
      (fields.map fun f => "\"" ++ jsonEscape f.1 ++ "\":\"" ++ jsonEscape f.2 ++ "\"") ++
  "\x7d"

/-- The JSON text `json.Marshal` produces for a `CreateJobResponse`. -/
def CreateJobResponse.marshal (resp : CreateJobResponse) : String :=
  renderJsonObject resp.marshalFields

/-- What the handler writes to the HTTP response writer: a status code,
an optional Content-Type header, and a body. -/
structure HttpResponse where
  code : Nat
  contentType : Option String
  body : String
deriving Repr, DecidableEq

/-- Embedding of `JobHandler.respondWithJSON` (jobs.go lines 143-154).
`marshalResult` is the outcome of `json.Marshal(payload)`: on `none`
(marshal error) the handler writes status 500 with no Content-Type and an
empty body; on `some s` it sets `Content-Type: application/json`, writes
`code` and the marshalled body. -/
def respondWithJSON (code : Nat) (marshalResult : Option String) : HttpResponse :=
  match marshalResult with
  | none => { code := 500, contentType := none, body := "" }
  | some s => { code := code, contentType := some "application/json", body := s }

/-- Payload built by `JobHandler.respondWithError` (jobs.go lines
135-141): `JobID` keeps its zero value `""`, `Status` is `"error"`. -/
def respondWithErrorPayload (message requestID : String) : CreateJobResponse :=
  { jobID := "", status := "error", message := message, requestID := requestID }

/-- The non-identifier inputs of one `CreateJob` invocation: the HTTP
method, the decode outcome of the request body (`none` models a
`json.Decoder.Decode` error), and whether `Provider.Push` succeeds. -/
structure HandlerInput where
  method : String
  body : Option CreateJobRequest
  pushOk : Bool
deriving Repr, DecidableEq

/-- Embedding of `JobHandler.CreateJob` (jobs.go lines 71-133), with the
two `uuid.New()` results passed in as `requestID` and `jobID`. Returns
the status code and the `CreateJobResponse` payload handed to
`respondWithJSON`. -/
def CreateJob (requestID jobID : String) (inp : HandlerInput) : Nat × CreateJobResponse :=
  if inp.method ≠ "POST" then
    (405, respondWithErrorPayload "Method not allowed" requestID)
  else
    match inp.body with
    | none => (400, respondWithErrorPayload "Invalid request body" requestID)
    | some req =>
      match req.validate with
      | some msg => (400, respondWithErrorPayload msg requestID)
      | none =>
        if inp.pushOk then
          (201, { jobID := jobID, status := "created",
                  message := "Job created successfully", requestID := requestID })
        else
          (500, respondWithErrorPayload "Failed to create job" requestID)

/-- Whether the `CreateJob` control flow reaches the `uuid.New()` call
that generates the job identifier (jobs.go line 100): method is POST,
body decodes, and validation passes. -/
def reachesJobGen (inp : HandlerInput) : Bool :=
  inp.method = "POST" &&
    match inp.body with
    | none => false
    | some req => req.validate.isNone

/-- `CreateJob` with identifier generation made explicit: `gen` models the
`uuid.New()` stream and `n` the number of identifiers drawn so far.
`requestID` is drawn first (jobs.go line 72); the job identifier is drawn
second, only on paths that reach line 100. Returns the response together
with the updated draw counter. -/
def CreateJobGen (gen : Nat → String) (n : Nat) (inp : HandlerInput) :
    (Nat × CreateJobResponse) × Nat :=
  (CreateJob (gen n) (gen (n + 1)) inp,
   if reachesJobGen inp then n + 2 else n + 1)

/-- The full HTTP write of one handler invocation: the payload is
marshalled (which always succeeds for `CreateJobResponse`) and written
through `respondWithJSON`. -/
def CreateJobHttp (requestID jobID : String) (inp : HandlerInput) : HttpResponse :=
  let r := CreateJob requestID jobID inp
  respondWithJSON r.1 (some r.2.marshal)

/-- Modelled from the spec: the `RunMode` selector is a closed enumeration
(§3) carried as an integer configuration value; the constants
`runner.RunModeFile` … `runner.RunModeAwsLambdaInvoker` are declared
outside the excerpt, so only their distinctness matters here. -/
def RunModeFile : Int := 1

/-- Modelled from the spec: see `RunModeFile`. -/
def RunModeDatabase : Int := 2

/-- Modelled from the spec: see `RunModeFile`. -/
def RunModeDatabaseProduce : Int := 3

/-- Modelled from the spec: see `RunModeFile`. -/
def RunModeInstallPlaywright : Int := 4

/-- Modelled from the spec: see `RunModeFile`. -/
def RunModeWeb : Int := 5

/-- Modelled from the spec: see `RunModeFile`. -/
def RunModeAwsLambda : Int := 6

/-- Modelled from the spec: see `RunModeFile`. -/
def RunModeAwsLambdaInvoker : Int := 7

/-- The recognized run-mode values, in the order of the `switch` arms of
`runnerFactory`. -/
def recognizedModes : List Int :=
  [RunModeFile, RunModeDatabase, RunModeDatabaseProduce, RunModeInstallPlaywright,
   RunModeWeb, RunModeAwsLambda, RunModeAwsLambdaInvoker]

/-- The concrete Runner variants `runnerFactory` can return, one per
constructor call in its `switch` (`filerunner.New`, `databaserunner.New`,
`installplaywright.New`, `webrunner.New`, `lambdaaws.New`,
`lambdaaws.NewInvoker`). -/
inductive ConcreteRunner where
  | filerunner
  | databaserunner
  | installplaywright
  | webrunner
  | lambdaaws
  | lambdaawsInvoker
deriving Repr, DecidableEq

/-- Modelled from the spec: `runner.ErrInvalidRunMode`, the distinguished
"invalid run mode" sentinel declared outside the excerpt (§4.1: "fail with
a distinguished \"invalid run mode\" error carrying the offending mode
value"). -/
def ErrInvalidRunMode : String := "invalid run mode"

/-- Embedding of `runnerFactory` (main, lines 92-109). Modelled from the
spec where the excerpt ends: the concrete constructors (`filerunner.New`
etc.) live outside the excerpt and, per §3 ("every enumerated value maps
to exactly one concrete Runner"), are modelled as always yielding their
Runner. The default arm builds `fmt.Errorf("%w: %d", ErrInvalidRunMode,
cfg.RunMode)`. -/
def runnerFactory (mode : Int) : Except String ConcreteRunner :=
  if mode = RunModeFile then .ok .filerunner
  else if mode = RunModeDatabase ∨ mode = RunModeDatabaseProduce then .ok .databaserunner
  else if mode = RunModeInstallPlaywright then .ok .installplaywright
  else if mode = RunModeWeb then .ok .webrunner
  else if mode = RunModeAwsLambda then .ok .lambdaaws
  else if mode = RunModeAwsLambdaInvoker then .ok .lambdaawsInvoker
  else .error (ErrInvalidRunMode ++ ": " ++ toString mode)

/-- Whether factory resolution succeeds for a mode value. -/
def factoryOk (mode : Int) : Bool :=
  match runnerFactory mode with
  | .ok _ => true
  | .error _ => false

/-- Observable events of the lifecycle coordinator (`main`) and the server
goroutine. `cancel` is the cancellation of the shared root context created
at line 26 — the same context passed to `Runner.Run`. `serverShutdownCall`
is an invocation of `Server.Shutdown` (server.go lines 45-48). -/
inductive Ev where
  | signalNotify
  | serverStartCall
  | logServerError
  | cancel
  | factoryCall
  | stderrWrite (msg : String)
  | runCall
  | closeCall
  | telemetryClose
  | serverShutdownCall
  | exitCall (code : Nat)
deriving Repr, DecidableEq

/-- The sentinel `http.ErrServerClosed` compared against in the server
goroutine (main, line 63). -/
def ErrServerClosed : String := "http: Server closed"

/-- Embedding of the server goroutine (main, lines 61-67): `startResult`
is what `srv.Start()` (hence `http.Server.ListenAndServe`) returns, `none`
for nil. On a non-nil error other than `http.ErrServerClosed` the
goroutine logs and cancels the shared root context. -/
def serverGoroutine (startResult : Option String) : List Ev :=
  .serverStartCall ::
    match startResult with
    | none => []
    | some e => if e ≠ ErrServerClosed then [.logServerError, .cancel] else []

/-- The environment of one `main` execution: the configured run mode and
whether `Run` on the resolved Runner returns an error (`some` carries the
error text). `serverErr` is the server goroutine's `Start` outcome; it is
recorded to show `main`'s own control flow does not consult it. -/
structure MainInput where
  mode : Int
  runErr : Option String
  serverErr : Option String
deriving Repr, DecidableEq

/-- Embedding of `main` (lines 25-90) as the sequential trace of the main
goroutine together with the `os.Exit` status. Factory failure (lines
70-76): cancel, write the error to stderr, close telemetry, exit 1. `Run`
failure (lines 78-84): write stderr, `Close` the runner, close telemetry,
cancel, exit 1. Success (lines 86-89): `Close`, close telemetry, cancel,
exit 0. -/
def mainTrace (inp : MainInput) : List Ev × Nat :=
  match runnerFactory inp.mode with
  | .error e =>
    ([.signalNotify, .factoryCall, .cancel, .stderrWrite e, .telemetryClose, .exitCall 1], 1)
  | .ok _ =>
    match inp.runErr with
    | some e =>
      ([.signalNotify, .factoryCall, .runCall, .stderrWrite e, .closeCall,
        .telemetryClose, .cancel, .exitCall 1], 1)
    | none =>
      ([.signalNotify, .factoryCall, .runCall, .closeCall,
        .telemetryClose, .cancel, .exitCall 0], 0)

/-- The valid example request of §8: query "coffee shops", language "en",
max_depth 3, extract_email true, geo_coordinates "40.7,-74.0", zoom 15. -/
def exampleValidReq : CreateJobRequest :=
  { query := "coffee shops", language := "en", maxDepth := 3,
    extractEmail := true, geoCoords := "40.7,-74.0", zoom := 15 }

/-- The invalid example request of §8: empty query, language "en",
max_depth 3, zoom 30; `extract_email` and `geo_coordinates` are absent
from the JSON body, so Go decoding leaves them at their zero values. -/
def exampleInvalidReq : CreateJobRequest :=
  { query := "", language := "en", maxDepth := 3,
    extractEmail := false, geoCoords := "", zoom := 30 }

/-- A concrete injective identifier stream, standing in for `uuid.New()`
in witnesses: the k-th identifier is the string of k letters a. -/
def repGen (k : Nat) : String :=
  String.mk (List.replicate k 'a')

theorem validationErrors_eq_specViolatedRules (r : CreateJobRequest) :
    r.validationErrors = specViolatedRules r := by
  unfold CreateJobRequest.validationErrors specViolatedRules
  have h1 : (r.maxDepth < 0 ∨ r.maxDepth > 10) ↔ ¬ (0 ≤ r.maxDepth ∧ r.maxDepth ≤ 10) := by
    omega
  have h2 : (r.zoom < 0 ∨ r.zoom > 21) ↔ ¬ (0 ≤ r.zoom ∧ r.zoom ≤ 21) := by
    omega
  simp only [h1, h2]

theorem validate_message_ne_empty (req : CreateJobRequest) (msg : String)
    (h : req.validate = some msg) : msg ≠ "" := by
  unfold CreateJobRequest.validate at h
  simp only at h
  split at h
  · obtain rfl := Option.some.inj h
    intro hkontra
    have h2 := congrArg String.length hkontra
    rw [String.length_append] at h2
    have h3 : ("validation failed: ").length = 19 := rfl
    have h4 : ("" : String).length = 0 := rfl
    omega
  · cases h

/-- C1: for every decoded job-creation request, validation evaluates all
four rules without short-circuiting and, when any rule is violated, the
handler responds 400 with "validation failed: " followed by exactly the
messages of every violated rule in the order query, language, max_depth,
zoom. `specValidate`/`specViolatedRules` restate the rules from the spec;
the code-side `CreateJobRequest.validate` agrees with them on every
request. -/
theorem validation_reports_all_violations (r : CreateJobRequest)
    (rid jid : String) (push : Bool) :
    r.validate = specValidate r ∧
    (specViolatedRules r ≠ [] →
      CreateJob rid jid ⟨"POST", some r, push⟩ =
        (400, respondWithErrorPayload
          ("validation failed: " ++ String.intercalate ", " (specViolatedRules r)) rid)) := by
  have he := validationErrors_eq_specViolatedRules r
  constructor
  · unfold CreateJobRequest.validate specValidate
    rw [he]
    rcases h : specViolatedRules r with _ | ⟨a, l⟩ <;> simp [h]
  · intro h
    have hv : r.validate =
        some ("validation failed: " ++ String.intercalate ", " (specViolatedRules r)) := by
      unfold CreateJobRequest.validate
      rw [he]
      simp [h, List.length_pos]
    unfold CreateJob
    simp [hv]

/-- C1 witness: the §8 example — empty query, zoom 30 — yields 400 with
message "validation failed: query is required, zoom must be between 0 and
21". -/
theorem validation_reports_all_violations_witness :
    exampleInvalidReq.validate = specValidate exampleInvalidReq ∧
    CreateJob "rid-0" "jid-0" ⟨"POST", some exampleInvalidReq, true⟩ =
      (400, respondWithErrorPayload
        "validation failed: query is required, zoom must be between 0 and 21" "rid-0") := by
  have h := validation_reports_all_violations exampleInvalidReq "rid-0" "jid-0" true
  exact ⟨h.1, (h.2 (by decide)).trans (by decide)⟩

/-- C2 counterexample: for a concrete valid request the 201 response
object emits the keys job_id, status, message, request_id — the `message`
field ("Job created successfully") is present, so the 201 body is not
exactly the claimed three-field object. -/
theorem created_response_emits_message_field :
    (CreateJob "rid-1" "jid-1" ⟨"POST", some exampleValidReq, true⟩).1 = 201 ∧
    (CreateJob "rid-1" "jid-1" ⟨"POST", some exampleValidReq, true⟩).2.marshalFields.map
        Prod.fst = ["job_id", "status", "message", "request_id"] ∧
    ¬ (CreateJob "rid-1" "jid-1" ⟨"POST", some exampleValidReq, true⟩).2.marshalFields.map
        Prod.fst = ["job_id", "status", "request_id"] := by
  decide

/-- C2 amended: a 201 response body is \x7bjob_id, status:"created",
message:"Job created successfully", request_id\x7d, and a 400, 405 or 500
response body is \x7bjob_id:"", status:"error", message, request_id\x7d —
`job_id` is always emitted (no omitempty) with the empty string on error
paths, and `message` is emitted whenever non-empty, which holds on every
path of this handler. -/
theorem response_schema_by_status (rid jid : String) (inp : HandlerInput) :
    ((CreateJob rid jid inp).1 = 201 →
      (CreateJob rid jid inp).2 =
        { jobID := jid, status := "created", message := "Job created successfully",
          requestID := rid } ∧
      (CreateJob rid jid inp).2.marshalFields.map Prod.fst =
        ["job_id", "status", "message", "request_id"]) ∧
    ((CreateJob rid jid inp).1 = 400 ∨ (CreateJob rid jid inp).1 = 405 ∨
        (CreateJob rid jid inp).1 = 500 →
      (CreateJob rid jid inp).2.jobID = "" ∧
      (CreateJob rid jid inp).2.status = "error" ∧
      (CreateJob rid jid inp).2.marshalFields.map Prod.fst =
        ["job_id", "status", "message", "request_id"]) := by
  obtain ⟨m, b, p⟩ := inp
  by_cases hm : m = "POST"
  · subst hm
    cases b with
    | none =>
      constructor
      · intro h
        simp [CreateJob] at h
      · intro _
        simp [CreateJob, respondWithErrorPayload, CreateJobResponse.marshalFields]
    | some req =>
      cases hv : req.validate with
      | some msg =>
        have hne := validate_message_ne_empty req msg hv
        constructor
        · intro h
          simp [CreateJob, hv] at h
        · intro _
          simp [CreateJob, hv, respondWithErrorPayload, CreateJobResponse.marshalFields, hne]
      | none =>
        cases p with
        | true =>
          constructor
          · intro _
            simp [CreateJob, hv, CreateJobResponse.marshalFields]
          · intro h
            simp [CreateJob, hv] at h
        | false =>
          constructor
          · intro h
            simp [CreateJob, hv] at h
          · intro _
            simp [CreateJob, hv, respondWithErrorPayload, CreateJobResponse.marshalFields]
  · constructor
    · intro h
      simp [CreateJob, hm] at h
    · intro _
      simp [CreateJob, hm, respondWithErrorPayload, CreateJobResponse.marshalFields]

/-- C2 witness: at the valid §8 example the 201 branch of the amended
schema holds with concrete identifiers. -/
theorem response_schema_by_status_witness :
    (CreateJob "rid-2" "jid-2" ⟨"POST", some exampleValidReq, true⟩).2 =
      { jobID := "jid-2", status := "created", message := "Job created successfully",
        requestID := "rid-2" } ∧
    (CreateJob "rid-2" "jid-2" ⟨"POST", some exampleValidReq, true⟩).2.marshalFields.map
        Prod.fst = ["job_id", "status", "message", "request_id"] :=
  (response_schema_by_status "rid-2" "jid-2" ⟨"POST", some exampleValidReq, true⟩).1
    (by decide)

/-- C3: the process exits 0 iff factory resolution succeeds and `Run`
returns nil; otherwise it exits 1, and before the `os.Exit` call the
telemetry sink is closed and, whenever `Run` was reached (factory ok), the
runner's `Close` was invoked. -/
theorem exit_zero_iff_clean_run (inp : MainInput) :
    ((mainTrace inp).2 = 0 ↔ factoryOk inp.mode = true ∧ inp.runErr = none) ∧
    ((mainTrace inp).2 = 0 ∨ (mainTrace inp).2 = 1) ∧
    (∃ l, (mainTrace inp).1 = l ++ [Ev.exitCall (mainTrace inp).2] ∧
      Ev.telemetryClose ∈ l ∧
      (factoryOk inp.mode = true → Ev.closeCall ∈ l)) := by
  obtain ⟨m, re, se⟩ := inp
  cases hf : runnerFactory m with
  | error e =>
    refine ⟨?_, ?_, ⟨[.signalNotify, .factoryCall, .cancel, .stderrWrite e, .telemetryClose],
      ?_, by simp, ?_⟩⟩ <;>
      simp [mainTrace, factoryOk, hf]
  | ok r =>
    cases re with
    | some e =>
      refine ⟨?_, ?_, ⟨[.signalNotify, .factoryCall, .runCall, .stderrWrite e, .closeCall,
        .telemetryClose, .cancel], ?_, by simp, by simp⟩⟩ <;>
        simp [mainTrace, factoryOk, hf]
    | none =>
      refine ⟨?_, ?_, ⟨[.signalNotify, .factoryCall, .runCall, .closeCall,
        .telemetryClose, .cancel], ?_, by simp, by simp⟩⟩ <;>
        simp [mainTrace, factoryOk, hf]

/-- C3 witness: with run mode 1 (file) and a clean `Run`, the exit status
is 0, and the trace performs `Close` and the telemetry close before the
exit call. -/
theorem exit_zero_iff_clean_run_witness :
    (mainTrace ⟨1, none, none⟩).2 = 0 ∧
    (∃ l, (mainTrace ⟨1, none, none⟩).1 = l ++ [Ev.exitCall (mainTrace ⟨1, none, none⟩).2] ∧
      Ev.telemetryClose ∈ l ∧ Ev.closeCall ∈ l) := by
  have h := exit_zero_iff_clean_run ⟨1, none, none⟩
  have h0 : (mainTrace ⟨1, none, none⟩).2 = 0 := h.1.mpr ⟨by decide, rfl⟩
  obtain ⟨l, hl, ht, hc⟩ := h.2.2
  exact ⟨h0, ⟨l, hl, ht, hc (by decide)⟩⟩

/-- C4: factory resolution is total over the run-mode enumeration — each
recognized mode value resolves to its concrete Runner — and any
unrecognized value yields the distinguished "invalid run mode" error
carrying the offending value, after which `main` exits 1 without a
`Run` (or `Close`) call on any Runner. -/
theorem runnerFactory_total_with_distinguished_error (m : Int) (re se : Option String) :
    runnerFactory RunModeFile = .ok .filerunner ∧
    runnerFactory RunModeDatabase = .ok .databaserunner ∧
    runnerFactory RunModeDatabaseProduce = .ok .databaserunner ∧
    runnerFactory RunModeInstallPlaywright = .ok .installplaywright ∧
    runnerFactory RunModeWeb = .ok .webrunner ∧
    runnerFactory RunModeAwsLambda = .ok .lambdaaws ∧
    runnerFactory RunModeAwsLambdaInvoker = .ok .lambdaawsInvoker ∧
    (m ∉ recognizedModes →
      runnerFactory m = .error (ErrInvalidRunMode ++ ": " ++ toString m) ∧
      (mainTrace ⟨m, re, se⟩).2 = 1 ∧
      Ev.runCall ∉ (mainTrace ⟨m, re, se⟩).1 ∧
      Ev.closeCall ∉ (mainTrace ⟨m, re, se⟩).1) := by
  refine ⟨rfl, rfl, rfl, rfl, rfl, rfl, rfl, fun hm => ?_⟩
  simp only [recognizedModes, List.mem_cons, List.not_mem_nil, or_false, not_or] at hm
  obtain ⟨h1, h2, h3, h4, h5, h6, h7⟩ := hm
  have hf : runnerFactory m = .error (ErrInvalidRunMode ++ ": " ++ toString m) := by
    unfold runnerFactory
    simp [h1, h2, h3, h4, h5, h6, h7]
  refine ⟨hf, ?_, ?_, ?_⟩ <;> simp [mainTrace, hf]

/-- C4 witness: the unrecognized mode value 99 produces the distinguished
error "invalid run mode: 99" and an exit-1 trace with no `Run` call. -/
theorem runnerFactory_total_with_distinguished_error_witness :
    runnerFactory 99 = .error "invalid run mode: 99" ∧
    (mainTrace ⟨99, none, none⟩).2 = 1 ∧
    Ev.runCall ∉ (mainTrace ⟨99, none, none⟩).1 := by
  have h := (runnerFactory_total_with_distinguished_error 99 none none).2.2.2.2.2.2.2
    (by decide)
  exact ⟨h.1.trans (by rfl), h.2.1, h.2.2.1⟩

/-- C5: whenever factory resolution succeeds (so `Run` is invoked),
`Close` appears exactly once in the main trace, strictly after the `Run`
call — both when `Run` returns nil and when it returns an error. -/
theorem close_invoked_exactly_once_after_run (inp : MainInput)
    (h : factoryOk inp.mode = true) :
    ∃ l1 l2 l3,
      (mainTrace inp).1 = l1 ++ Ev.runCall :: (l2 ++ Ev.closeCall :: l3) ∧
      Ev.closeCall ∉ l1 ∧ Ev.closeCall ∉ l2 ∧ Ev.closeCall ∉ l3 ∧
      Ev.runCall ∉ l1 := by
  obtain ⟨m, re, se⟩ := inp
  unfold factoryOk at h
  cases hf : runnerFactory m with
  | error e => rw [hf] at h; simp at h
  | ok r =>
    cases re with
    | none =>
      exact ⟨[.signalNotify, .factoryCall], [], [.telemetryClose, .cancel, .exitCall 0],
        by simp [mainTrace, hf], by simp, by simp, by simp, by simp⟩
    | some e =>
      exact ⟨[.signalNotify, .factoryCall], [.stderrWrite e],
        [.telemetryClose, .cancel, .exitCall 1],
        by simp [mainTrace, hf], by simp, by simp, by simp, by simp⟩

/-- C5 witness: with run mode 1 and a failing `Run`, the trace contains
exactly one `Close`, after the `Run` call. -/
theorem close_invoked_exactly_once_after_run_witness :
    factoryOk (1 : Int) = true ∧
    ∃ l1 l2 l3,
      (mainTrace ⟨1, some "scrape failed", none⟩).1 =
        l1 ++ Ev.runCall :: (l2 ++ Ev.closeCall :: l3) ∧
      Ev.closeCall ∉ l1 ∧ Ev.closeCall ∉ l2 ∧ Ev.closeCall ∉ l3 ∧
      Ev.runCall ∉ l1 :=
  ⟨by decide, close_invoked_exactly_once_after_run ⟨1, some "scrape failed", none⟩ (by decide)⟩

/-- C6: on a valid request whose `Provider.Push` fails, the handler
responds 500 with the fixed message "Failed to create job", the `job_id`
field of the response is the empty string, and the response is identical
for any two values of the generated job identifier — the generated job id
is never exposed to the caller on this path. -/
theorem push_failure_hides_job_id (rid jid jid2 : String)
    (req : CreateJobRequest) (hv : req.validate = none) :
    CreateJob rid jid ⟨"POST", some req, false⟩ =
      (500, respondWithErrorPayload "Failed to create job" rid) ∧
    (CreateJob rid jid ⟨"POST", some req, false⟩).2.jobID = "" ∧
    CreateJob rid jid ⟨"POST", some req, false⟩ =
      CreateJob rid jid2 ⟨"POST", some req, false⟩ := by
  unfold CreateJob
  simp [hv, respondWithErrorPayload]

/-- C6 witness: at the valid §8 example with a failing push, the response
is the 500 error payload with empty job_id, independent of the generated
job identifier. -/
theorem push_failure_hides_job_id_witness :
    CreateJob "rid-3" "jid-3" ⟨"POST", some exampleValidReq, false⟩ =
      (500, respondWithErrorPayload "Failed to create job" "rid-3") ∧
    (CreateJob "rid-3" "jid-3" ⟨"POST", some exampleValidReq, false⟩).2.jobID = "" ∧
    CreateJob "rid-3" "jid-3" ⟨"POST", some exampleValidReq, false⟩ =
      CreateJob "rid-3" "jid-other" ⟨"POST", some exampleValidReq, false⟩ :=
  push_failure_hides_job_id "rid-3" "jid-3" "jid-other" exampleValidReq (by decide)

theorem repGen_injective : Function.Injective repGen := by
  intro a b h
  have hd : (repGen a).data = (repGen b).data := congrArg String.data h
  simp only [repGen] at hd
  have hl := congrArg List.length hd
  simpa using hl

/-- C7: with identifier generation made explicit as an injective stream,
a valid request yields a 201 response whose request-correlation id (drawn
first) and job id (drawn second) are distinct, and submitting the same
valid payload again from the updated draw counter yields a job id distinct
from the first — no deduplication by payload. -/
theorem fresh_ids_pairwise_distinct (gen : Nat → String)
    (hg : Function.Injective gen) (n : Nat) (req : CreateJobRequest)
    (hv : req.validate = none) :
    (CreateJobGen gen n ⟨"POST", some req, true⟩).1 =
      (201, { jobID := gen (n + 1), status := "created",
              message := "Job created successfully", requestID := gen n }) ∧
    gen n ≠ gen (n + 1) ∧
    (CreateJobGen gen n ⟨"POST", some req, true⟩).2 = n + 2 ∧
    (CreateJobGen gen (n + 2) ⟨"POST", some req, true⟩).1.2.jobID = gen (n + 3) ∧
    gen (n + 3) ≠ gen (n + 1) := by
  have hr : reachesJobGen ⟨"POST", some req, true⟩ = true := by
    simp [reachesJobGen, hv]
  refine ⟨?_, fun h => by have := hg h; omega, ?_, ?_, fun h => by have := hg h; omega⟩
  · simp [CreateJobGen, CreateJob, hv]
  · simp [CreateJobGen, hr]
  · simp [CreateJobGen, CreateJob, hv]

/-- C7 witness: with the concrete injective stream `repGen` and the valid
§8 example, two submissions yield distinct request/job identifiers and
distinct job identifiers across submissions. -/
theorem fresh_ids_pairwise_distinct_witness :
    (CreateJobGen repGen 0 ⟨"POST", some exampleValidReq, true⟩).1 =
      (201, { jobID := repGen 1, status := "created",
              message := "Job created successfully", requestID := repGen 0 }) ∧
    repGen 0 ≠ repGen 1 ∧
    (CreateJobGen repGen 0 ⟨"POST", some exampleValidReq, true⟩).2 = 0 + 2 ∧
    (CreateJobGen repGen (0 + 2) ⟨"POST", some exampleValidReq, true⟩).1.2.jobID =
      repGen (0 + 3) ∧
    repGen (0 + 3) ≠ repGen (0 + 1) :=
  fresh_ids_pairwise_distinct repGen repGen_injective 0 exampleValidReq (by decide)

/-- C8: `Server.Shutdown` is never invoked — it appears neither in the
main goroutine's trace nor in the server goroutine's trace, for every
input — and the main trace (hence the exit) is unchanged by the server
goroutine's outcome: only `Run` completing or factory resolution failing
drives process exit. -/
theorem server_never_shut_down (inp : MainInput) (so so2 : Option String) :
    Ev.serverShutdownCall ∉ (mainTrace inp).1 ∧
    Ev.serverShutdownCall ∉ serverGoroutine so ∧
    mainTrace ⟨inp.mode, inp.runErr, so⟩ = mainTrace ⟨inp.mode, inp.runErr, so2⟩ := by
  obtain ⟨m, re, se⟩ := inp
  refine ⟨?_, ?_, rfl⟩
  · unfold mainTrace
    cases hf : runnerFactory m <;> cases re <;> simp
  · unfold serverGoroutine
    cases so with
    | none => simp
    | some e =>
      by_cases he : e ≠ ErrServerClosed <;> simp [he]

/-- C8 witness: with run mode 1, a clean run, and a failing server start,
no `Shutdown` call occurs and the main trace ignores the server outcome. -/
theorem server_never_shut_down_witness :
    Ev.serverShutdownCall ∉ (mainTrace ⟨1, none, none⟩).1 ∧
    Ev.serverShutdownCall ∉ serverGoroutine (some "boom") ∧
    mainTrace ⟨1, none, some "boom"⟩ = mainTrace ⟨1, none, none⟩ :=
  server_never_shut_down ⟨1, none, none⟩ (some "boom") none

/-- C9: when `json.Marshal` of the response payload fails,
`respondWithJSON` writes status 500 with an empty body and sets no
Content-Type header — no error object is produced on this path. -/
theorem marshal_failure_writes_bare_500 (code : Nat) :
    respondWithJSON code none = { code := 500, contentType := none, body := "" } :=
  rfl

/-- C10: if `srv.Start()` returns an error other than the
`http.ErrServerClosed` sentinel, the server goroutine cancels the shared
root context (the context `Runner.Run` observes); on a nil result or the
sentinel it does not. -/
theorem server_start_error_cancels_root_context (e : String)
    (h : e ≠ ErrServerClosed) :
    Ev.cancel ∈ serverGoroutine (some e) ∧
    Ev.cancel ∉ serverGoroutine (some ErrServerClosed) ∧
    Ev.cancel ∉ serverGoroutine none := by
  refine ⟨?_, by simp [serverGoroutine], by simp [serverGoroutine]⟩
  simp [serverGoroutine, h]

/-- C10 witness: a bind failure on port 6060 is not the server-closed
sentinel, so the goroutine cancels the root context. -/
theorem server_start_error_cancels_root_context_witness :
    Ev.cancel ∈ serverGoroutine (some "listen tcp :6060: bind: address already in use") ∧
    Ev.cancel ∉ serverGoroutine (some ErrServerClosed) ∧
    Ev.cancel ∉ serverGoroutine none :=
  server_start_error_cancels_root_context
    "listen tcp :6060: bind: address already in use" (by decide)

end GMapsScraper
